import Mathlib

/-
Verification of the news_cli argument-validation layer and main routine.

The development shallowly embeds src/news_cli.py:
  - `verify_str_length` / `verify_int_range`: the two validator factories,
    embedded as functions of their bounds applied to the candidate value.
  - `pyInt`: a model of the `int(str)` conversion used by `verify_int_range`.
  - `parse_args`: the token loop of the argparse parser built by the
    repository (options --topic, -t, --article_count, -c, --timeout,
    --version, -v), restricted to the `--flag value` spellings.
  - `mainRun`: the observable events of `main` after a successful parse
    (stdout, stderr, the single HTTP GET) and the process exit.
-/

namespace NewsCli

/-- Python `len` of a string: the number of Unicode code points. -/
def pyLen (s : String) : Int := (s.length : Int)

/-- Structured content of the `ArgumentTypeError` raised by the validators:
each constructor carries the offending input and the bound (and, for the
length checks, the measured length) interpolated into the message text. -/
inductive ArgErr where
  | strTooShort (raw : String) (lower : Int) (len : Int)
  | strTooLong (raw : String) (upper : Int) (len : Int)
  | intConv (raw : String)
  | intTooLow (raw : String) (lower : Int)
  | intTooHigh (raw : String) (upper : Int)
  deriving Repr, DecidableEq

/-- The `for raw_text in argument_value_list` loop body of the inner function
of `verify_str_length`: scan the list and report the first bound violation,
`none` when every string passes. -/
def check_str (lower upper : Int) : List String → Option ArgErr
  | [] => none
  | raw_text :: rest =>
    if pyLen raw_text ≤ lower then some (.strTooShort raw_text lower (pyLen raw_text))
    else if pyLen raw_text ≥ upper then some (.strTooLong raw_text upper (pyLen raw_text))
    else check_str lower upper rest

/-- `verify_str_length(lower, upper)` applied to a list of strings (the inner
function of the factory): raises on the first string whose length is ≤ lower
or ≥ upper, otherwise returns the received list unchanged.
Source defaults: lower = 0, upper = 255. -/
def verify_str_length (lower upper : Int) (argument_value_list : List String) :
    Except ArgErr (List String) :=
  match check_str lower upper argument_value_list with
  | some e => .error e
  | none => .ok argument_value_list

/-- ASCII whitespace stripped by the `int(str)` conversion. -/
def isPySpace (c : Char) : Bool :=
  c = ' ' || c = '\t' || c = '\n' || c = '\r' || c.toNat = 11 || c.toNat = 12

/-- Decimal digit test for the `int(str)` conversion. -/
def isPyDigit (c : Char) : Bool := '0' ≤ c && c ≤ '9'

/-- Numeric value of a decimal digit character. -/
def digitVal (c : Char) : Nat := c.toNat - Char.toNat '0'

/-- Digits after the first one, with a single underscore allowed between two
digits (the numeric-literal grammar that `int(str)` accepts). -/
def digitsCore : List Char → Nat → Option Nat
  | [], acc => some acc
  | ['_'], _ => none
  | '_' :: c :: rest, acc =>
    if isPyDigit c then digitsCore rest (10 * acc + digitVal c) else none
  | c :: rest, acc =>
    if isPyDigit c then digitsCore rest (10 * acc + digitVal c) else none

/-- The digit body of `int(str)`: a nonempty digit sequence, with single
underscores allowed between digits. -/
def parsePyDigits : List Char → Option Nat
  | [] => none
  | c :: rest => if isPyDigit c then digitsCore rest (digitVal c) else none

/-- Remove trailing characters satisfying `isPySpace`. -/
def dropTrailingSpaces : List Char → List Char
  | [] => []
  | c :: rest =>
    match dropTrailingSpaces rest with
    | [] => if isPySpace c then [] else [c]
    | r => c :: r

/-- The two-sided whitespace strip that `int(str)` performs. -/
def pyStrip (cs : List Char) : List Char :=
  dropTrailingSpaces (cs.dropWhile isPySpace)

/-- The optional sign in front of the digit body of `int(str)`. -/
def pySigned : List Char → Option Int
  | '+' :: rest => (parsePyDigits rest).map (fun v => (v : Int))
  | '-' :: rest => (parsePyDigits rest).map (fun v => -(v : Int))
  | other => (parsePyDigits other).map (fun v => (v : Int))

/-- Model of the `int(s)` conversion applied to a `str`: strip ASCII
whitespace, then an optional sign followed by decimal digits with optional
single underscores between them. (CPython also accepts non-ASCII decimal
digits; that is outside the inputs modelled here.) -/
def pyInt (s : String) : Option Int :=
  pySigned (pyStrip s.data)

/-- `verify_int_range(lower, upper)` applied to the raw option text (the
inner function of the factory): convert with `int`, then reject
`count ≤ lower` and `count ≥ upper`, otherwise return the integer.
Source defaults: lower = 0, upper = 10. -/
def verify_int_range (lower upper : Int) (raw_argument_value : String) :
    Except ArgErr Int :=
  match pyInt raw_argument_value with
  | none => .error (.intConv raw_argument_value)
  | some count =>
    if count ≤ lower then .error (.intTooLow raw_argument_value lower)
    else if count ≥ upper then .error (.intTooHigh raw_argument_value upper)
    else .ok count

/-- Iterating a Python `str` yields its characters, each a length-1 string. -/
def pyStrIter (s : String) : List String := s.data.map (fun c => String.mk [c])

/-- What argparse does with `type=verify_str_length()` under
`action="append"`: each topic occurrence is passed to the checker as a single
`str`, the checker's `for` loop iterates over the characters of that string,
and on success the received object (the original string) is returned. -/
def topic_type (s : String) : Except ArgErr String :=
  match verify_str_length 0 255 (pyStrIter s) with
  | .ok _ => .ok s
  | .error e => .error e

/-- The parsed-arguments record (the argparse `Namespace` produced by the
parser of `create_parser`). -/
structure PyNamespace where
  topic : List String
  article_count : Int
  timeout : Int
  deriving Repr, DecidableEq

/-- Why `parse_args` fails (argparse raises `SystemExit(2)` in each case). -/
inductive ParseFailure where
  | missingRequiredTopic
  | expectedOneArgument (flag : String)
  | invalidValue (flag : String) (e : ArgErr)
  | unrecognizedArgument (tok : String)
  deriving Repr, DecidableEq

/-- Result of `parser.parse_args(argv)`: a `Namespace`, a parse error
(`SystemExit(2)`), or the version action (prints and raises
`SystemExit(0)`). -/
inductive ParseOutcome where
  | ok (ns : PyNamespace)
  | err (f : ParseFailure)
  | versionExit
  deriving Repr, DecidableEq

/-- The argparse negative-number matcher (regex `-` then digits, optionally
with a decimal point). The parser declares no option string that looks like a
negative number, so tokens matching this are classified as values. -/
def negNumTail (cs : List Char) : Bool :=
  (!cs.isEmpty && cs.all isPyDigit) ||
    (match cs.dropWhile (fun c => c ≠ '.') with
     | '.' :: after =>
       (cs.takeWhile (fun c => c ≠ '.')).all isPyDigit &&
         !after.isEmpty && after.all isPyDigit
     | _ => false)

/-- argparse token classification: `true` when the token is taken for an
option string rather than a value. A token not starting with the prefix
character, a lone `-`, a negative number, or a token containing a space is a
value. -/
def isOptionToken (s : String) : Bool :=
  match s.data with
  | '-' :: c :: rest => !negNumTail (c :: rest) && !(s.data.contains ' ')
  | _ => false

/-- Option values seen so far while parsing (argparse keeps `None` until an
option occurs; defaults fill in at the end). -/
structure ParseState where
  topic : Option (List String)
  article_count : Option Int
  timeout : Option Int

def isTopicFlag (t : String) : Bool := t = "--topic" || t = "-t"

def isCountFlag (t : String) : Bool := t = "--article_count" || t = "-c"

def isTimeoutFlag (t : String) : Bool := t = "--timeout"

def isVersionFlag (t : String) : Bool := t = "--version" || t = "-v"

/-- End of the token stream: enforce the required topic and fill the argparse
defaults `article_count = 10`, `timeout = 10` (the defaults are stored as
ints, so the `type` validators never see them). -/
def finalizeParse (st : ParseState) : ParseOutcome :=
  match st.topic with
  | none => .err .missingRequiredTopic
  | some ts => .ok ⟨ts, st.article_count.getD 10, st.timeout.getD 10⟩

/-- The token loop of `parser.parse_args` for the three options and the
version flag of the parser, restricted to the separate `--flag value`
spelling (no `=` forms and no abbreviated long options, which no claim
exercises). Each option consumes the next token when argparse classifies it
as a value, applies its `type` function, and stores or appends the result;
the version action exits at once; anything else is an argparse error. -/
def parseTokens : List String → ParseState → ParseOutcome
  | [], st => finalizeParse st
  | [t], _st =>
    if isTopicFlag t || isCountFlag t || isTimeoutFlag t then
      .err (.expectedOneArgument t)
    else if isVersionFlag t then .versionExit
    else .err (.unrecognizedArgument t)
  | t :: v :: rest, st =>
    if isTopicFlag t then
      if isOptionToken v then .err (.expectedOneArgument t)
      else
        match topic_type v with
        | .error e => .err (.invalidValue t e)
        | .ok s => parseTokens rest { st with topic := some (st.topic.getD [] ++ [s]) }
    else if isCountFlag t then
      if isOptionToken v then .err (.expectedOneArgument t)
      else
        match verify_int_range 0 10 v with
        | .error e => .err (.invalidValue t e)
        | .ok n => parseTokens rest { st with article_count := some n }
    else if isTimeoutFlag t then
      if isOptionToken v then .err (.expectedOneArgument t)
      else
        match verify_int_range 0 60 v with
        | .error e => .err (.invalidValue t e)
        | .ok n => parseTokens rest { st with timeout := some n }
    else if isVersionFlag t then .versionExit
    else .err (.unrecognizedArgument t)

/-- `create_parser().parse_args(argv)`. -/
def parse_args (argv : List String) : ParseOutcome :=
  parseTokens argv ⟨none, none, none⟩

/-- The fixed news-search endpoint `BASE_URL`. -/
def BASE_URL : String := "https://gnews.io/api/v4/search"

/-- Observable effects of `main` after a successful parse, in program
order. -/
inductive Event where
  | stdout (s : String)
  | stderrOut (s : String)
  | httpGet (url : String) (params : List (String × String)) (timeout : Option Int)
  deriving Repr, DecidableEq

/-- Is this event the outbound HTTP request? -/
def Event.isHttpGet : Event → Bool
  | .httpGet _ _ _ => true
  | _ => false

/-- The HTTP response the GET receives: the status code, and the
pretty-printed rendering of the JSON body when it decodes (`none` when
`response.json()` raises). -/
structure HttpResponse where
  status : Nat
  jsonPretty : Option String
  deriving Repr, DecidableEq

/-- How the process ends after `main` runs. -/
inductive ProcExit where
  | exited (code : Int)
  | raised
  | finished
  deriving Repr, DecidableEq

/-- Python `repr` of a topic string, for the printable strings that occur
here (quote and control-character escaping is not modelled; no claim inspects
it). -/
def pyStrRepr (s : String) : String := "'" ++ s ++ "'"

/-- Python `repr` of a list of strings. -/
def pyListRepr (xs : List String) : String :=
  "[" ++ String.intercalate ", " (xs.map pyStrRepr) ++ "]"

/-- `repr` of the argparse `Namespace` (attributes in sorted order, as
`Namespace.__repr__` prints them). -/
def namespaceRepr (a : PyNamespace) : String :=
  "Namespace(article_count=" ++ toString a.article_count ++
    ", timeout=" ++ toString a.timeout ++
    ", topic=" ++ pyListRepr a.topic ++ ")"

/-- The fixed message `main` prints to stderr when `NEWS_KEY` is absent
(a triple-quoted literal starting with a newline and indented lines). -/
def NO_KEY_MSG : String :=
  "\n              No API key \"NEWS_KEY\" set in the environment.\n              Go to # https://gnews.io/ to get your key.\n              Exiting..."

/-- The request payload `main` builds, in insertion order: the topics joined
by single spaces, the fixed language and country, the stringified article
count, and the API key from the environment. -/
def buildPayload (args : PyNamespace) (apikey : String) : List (String × String) :=
  [("q", String.intercalate " " args.topic),
   ("lang", "en"),
   ("country", "us"),
   ("max", toString args.article_count),
   ("apikey", apikey)]

/-- What `main` does after the GET returns: `raise_for_status` raises for
status codes 400..599 and a non-decoding body makes `response.json()` raise
(both uncaught, no further output); otherwise the decoded document is
pretty-printed to stdout. -/
def responseEvents (resp : HttpResponse) : List Event :=
  if 400 ≤ resp.status && resp.status < 600 then []
  else
    match resp.jsonPretty with
    | none => []
    | some body => [.stdout body]

/-- How the process ends once the GET has been issued. -/
def responseExit (resp : HttpResponse) : ProcExit :=
  if 400 ≤ resp.status && resp.status < 600 then .raised
  else
    match resp.jsonPretty with
    | none => .raised
    | some _ => .finished

/-- `main` after `parse_args` returned `args`: the ordered observable events
and the process exit. `env` is the process environment, `resp` the response
the GET receives. The call site is
`requests.get(url=BASE_URL, params=payload)`: no `timeout=` argument is
passed, so the issued request carries none (the parsed `args.timeout` is
never read). -/
def mainRun (args : PyNamespace) (env : String → Option String)
    (resp : HttpResponse) : List Event × ProcExit :=
  let argsLine := Event.stdout ("args are " ++ namespaceRepr args)
  match env "NEWS_KEY" with
  | none => ([argsLine, .stderrOut NO_KEY_MSG], .exited 22)
  | some key =>
    let req := Event.httpGet BASE_URL (buildPayload args key) none
    ([argsLine, req] ++ responseEvents resp, responseExit resp)

/-! ## Helper lemmas about the validators -/

/-- The scan returns `none` exactly when every string lies strictly inside
the bounds. -/
theorem check_str_eq_none_iff (lower upper : Int) (xs : List String) :
    check_str lower upper xs = none ↔
      ∀ s ∈ xs, lower < pyLen s ∧ pyLen s < upper := by
  induction xs with
  | nil => simp [check_str]
  | cons a rest ih =>
    by_cases h1 : pyLen a ≤ lower
    · simp only [check_str, if_pos h1]
      constructor
      · intro h; exact absurd h (Option.some_ne_none _)
      · intro h; exact absurd (h a (List.mem_cons_self a rest)).1 (not_lt.mpr h1)
    · by_cases h2 : pyLen a ≥ upper
      · simp only [check_str, if_neg h1, if_pos h2]
        constructor
        · intro h; exact absurd h (Option.some_ne_none _)
        · intro h; exact absurd (h a (List.mem_cons_self a rest)).2 (not_lt.mpr h2)
      · simp only [check_str, if_neg h1, if_neg h2]
        rw [ih, List.forall_mem_cons]
        have ha : lower < pyLen a ∧ pyLen a < upper :=
          ⟨lt_of_not_le h1, lt_of_not_le h2⟩
        simp [ha]

/-- When the scan reports an error, it names a string of the list that
violates a bound, together with that bound and the measured length. -/
theorem check_str_eq_some (lower upper : Int) (xs : List String) (e : ArgErr)
    (h : check_str lower upper xs = some e) :
    ∃ s ∈ xs, ¬(lower < pyLen s ∧ pyLen s < upper) ∧
      (e = .strTooShort s lower (pyLen s) ∨ e = .strTooLong s upper (pyLen s)) := by
  induction xs with
  | nil => simp [check_str] at h
  | cons a rest ih =>
    by_cases h1 : pyLen a ≤ lower
    · rw [check_str, if_pos h1] at h
      refine ⟨a, List.mem_cons_self a rest, ?_, .inl (Option.some_injective _ h).symm⟩
      intro hc; exact absurd hc.1 (not_lt.mpr h1)
    · by_cases h2 : pyLen a ≥ upper
      · rw [check_str, if_neg h1, if_pos h2] at h
        refine ⟨a, List.mem_cons_self a rest, ?_, .inr (Option.some_injective _ h).symm⟩
        intro hc; exact absurd hc.2 (not_lt.mpr h2)
      · rw [check_str, if_neg h1, if_neg h2] at h
        obtain ⟨s, hs, hv, he⟩ := ih h
        exact ⟨s, List.mem_cons_of_mem a hs, hv, he⟩

/-! ## Claim theorems for the validators -/

/-- C1: for every list of strings and bounds L and U (defaults 0 and 255),
`verify_str_length` returns the input list unchanged exactly when every
string has length strictly between L and U; otherwise it fails with an error
naming an offending string and the bound it violates, and it does nothing
else. -/
theorem C1_verify_str_length_contract (lower upper : Int) (xs : List String) :
    (verify_str_length lower upper xs = .ok xs ↔
      ∀ s ∈ xs, lower < pyLen s ∧ pyLen s < upper) ∧
    (∀ e, verify_str_length lower upper xs = .error e →
      ∃ s ∈ xs, ¬(lower < pyLen s ∧ pyLen s < upper) ∧
        (e = .strTooShort s lower (pyLen s) ∨ e = .strTooLong s upper (pyLen s))) ∧
    ((∃ s ∈ xs, ¬(lower < pyLen s ∧ pyLen s < upper)) →
      ∃ e, verify_str_length lower upper xs = .error e) := by
  unfold verify_str_length
  cases hc : check_str lower upper xs with
  | none =>
    refine ⟨iff_of_true rfl ((check_str_eq_none_iff lower upper xs).mp hc), ?_, ?_⟩
    · intro e he; simp at he
    · intro ⟨s, hs, hv⟩
      exact absurd ((check_str_eq_none_iff lower upper xs).mp hc s hs) hv
  | some e0 =>
    obtain ⟨s, hs, hv, _⟩ := check_str_eq_some lower upper xs e0 hc
    refine ⟨?_, ?_, fun _ => ⟨e0, rfl⟩⟩
    · constructor
      · intro h; simp at h
      · intro h; exact absurd (h s hs) hv
    · intro e he
      have : e0 = e := by simpa using he
      exact this ▸ check_str_eq_some lower upper xs e0 hc

/-- When the text does not convert, `verify_int_range` reports the
conversion error. -/
theorem verify_int_range_of_pyInt_none (lower upper : Int) (t : String)
    (hp : pyInt t = none) :
    verify_int_range lower upper t = .error (.intConv t) := by
  unfold verify_int_range
  rw [hp]

/-- When the text converts to `m`, `verify_int_range` is the two bound
checks on `m`. -/
theorem verify_int_range_of_pyInt_some (lower upper : Int) (t : String)
    (m : Int) (hp : pyInt t = some m) :
    verify_int_range lower upper t =
      (if m ≤ lower then .error (.intTooLow t lower)
       else if m ≥ upper then .error (.intTooHigh t upper)
       else .ok m) := by
  unfold verify_int_range
  rw [hp]

/-- C2: for every input text t and bounds L and U (defaults 0 and 10),
`verify_int_range` fails exactly when t does not convert to an integer, or
the converted integer n satisfies n ≤ L or n ≥ U; otherwise it returns n. -/
theorem C2_verify_int_range_contract (lower upper : Int) (t : String) :
    ((∃ e, verify_int_range lower upper t = .error e) ↔
      pyInt t = none ∨ ∃ n, pyInt t = some n ∧ (n ≤ lower ∨ upper ≤ n)) ∧
    (∀ n, pyInt t = some n → lower < n → n < upper →
      verify_int_range lower upper t = .ok n) := by
  cases hp : pyInt t with
  | none =>
    constructor
    · constructor
      · intro _; exact .inl rfl
      · intro _; exact ⟨.intConv t, verify_int_range_of_pyInt_none lower upper t hp⟩
    · intro n hn
      exact absurd hn (by simp)
  | some m =>
    have hv := verify_int_range_of_pyInt_some lower upper t m hp
    constructor
    · constructor
      · intro ⟨e, he⟩
        refine .inr ⟨m, rfl, ?_⟩
        by_contra hcon
        push_neg at hcon
        rw [hv, if_neg (not_le.mpr hcon.1), if_neg (not_le.mpr hcon.2)] at he
        simp at he
      · intro h
        rcases h with h | ⟨n, hn, hb⟩
        · simp at h
        · have hm : m = n := Option.some.inj hn
          subst hm
          by_cases h1 : m ≤ lower
          · exact ⟨_, by rw [hv, if_pos h1]⟩
          · rcases hb with hb | hb
            · exact absurd hb h1
            · exact ⟨_, by rw [hv, if_neg h1, if_pos hb]⟩
    · intro n hn hl hu
      have hm : m = n := Option.some.inj hn
      subst hm
      rw [hv, if_neg (not_le.mpr hl), if_neg (not_le.mpr hu)]

/-! ## The topic length check as wired into argparse -/

/-- A length-1 string has Python length 1. -/
theorem pyLen_singleton (c : Char) : pyLen (String.mk [c]) = 1 := rfl

/-- Scanning the character iteration of any string with the default bounds
finds no violation: every element has length 1, and 0 < 1 < 255. -/
theorem check_str_pyStrIter (cs : List Char) :
    check_str 0 255 (cs.map (fun c => String.mk [c])) = none := by
  induction cs with
  | nil => rfl
  | cons c rest ih =>
    rw [List.map_cons, check_str, pyLen_singleton]
    norm_num [ih]

/-- The topic `type` function accepts every string and returns it
unchanged. -/
theorem topic_type_ok (s : String) : topic_type s = .ok s := by
  unfold topic_type verify_str_length pyStrIter
  rw [check_str_pyStrIter]

/-! ## Token classification lemmas -/

/-- A token classified as an option string starts with a dash and a second
character. -/
theorem isOptionToken_shape (s : String) (h : isOptionToken s = true) :
    ∃ c cs, s.data = '-' :: c :: cs := by
  unfold isOptionToken at h
  split at h
  · next c rest heq => exact ⟨c, rest, heq⟩
  · simp at h

/-- Dropping the trailing whitespace of a list headed by a non-space
character keeps that head. -/
theorem dropTrailingSpaces_cons_not_space (c : Char) (rest : List Char)
    (h : isPySpace c = false) :
    ∃ t, dropTrailingSpaces (c :: rest) = c :: t := by
  rw [dropTrailingSpaces]
  cases hd : dropTrailingSpaces rest with
  | nil => exact ⟨[], by simp [h]⟩
  | cons x xs => exact ⟨x :: xs, by simp⟩

/-- A string whose text starts with a dash converts, when it converts at
all, to a non-positive integer. -/
theorem pyInt_nonpos_of_dash_head (s : String) (c : Char) (cs : List Char)
    (hs : s.data = '-' :: c :: cs) (n : Int) (h : pyInt s = some n) :
    n ≤ 0 := by
  unfold pyInt pyStrip at h
  rw [hs, List.dropWhile_cons] at h
  have hspace : isPySpace '-' = false := rfl
  rw [hspace] at h
  simp only [Bool.false_eq_true, if_false] at h
  obtain ⟨t, ht⟩ := dropTrailingSpaces_cons_not_space '-' (c :: cs) rfl
  rw [ht] at h
  have hsgn : pySigned ('-' :: t) = (parsePyDigits t).map (fun v => -(v : Int)) := rfl
  rw [hsgn] at h
  cases hv : parsePyDigits t with
  | none => rw [hv] at h; simp at h
  | some v =>
    rw [hv] at h
    simp at h
    omega

/-! ## Claim theorems about the parser -/

/-- C3: contrary to the documented 1..254 length bound, the topic checker as
wired into argparse accepts every string: each topic is passed to it as a
single `str`, the loop iterates that string's characters (each of length 1,
inside the default bounds 0 and 255), so the empty topic and a 300-character
topic both parse successfully. -/
theorem parse_one_topic (s : String) (hopt : isOptionToken s = false) :
    parse_args ["-t", s] = .ok ⟨[s], 10, 10⟩ := by
  have hstep : parse_args ["-t", s] =
      (if isOptionToken s then .err (.expectedOneArgument "-t")
       else
         match topic_type s with
         | .error e => .err (.invalidValue "-t" e)
         | .ok s2 => parseTokens [] ⟨some ([] ++ [s2]), none, none⟩) := rfl
  rw [hstep, hopt, topic_type_ok]
  rfl

/-- The head character of a nonempty replicated list. -/
theorem replicate_300_a_not_option :
    isOptionToken (String.mk (List.replicate 300 'a')) = false := by
  decide

theorem C3_topic_length_check_vacuous :
    (∀ s : String, topic_type s = .ok s) ∧
    parse_args ["-t", ""] = .ok ⟨[""], 10, 10⟩ ∧
    parse_args ["-t", String.mk (List.replicate 300 'a')] =
      .ok ⟨[String.mk (List.replicate 300 'a')], 10, 10⟩ :=
  ⟨topic_type_ok, parse_one_topic "" rfl,
    parse_one_topic (String.mk (List.replicate 300 'a')) replicate_300_a_not_option⟩

/-- One parse step: after consuming `-t test`, the remaining tokens are
parsed with the topic recorded. -/
theorem parse_step_topic_test (rest : List String) :
    parseTokens ("-t" :: "test" :: rest) ⟨none, none, none⟩ =
      parseTokens rest ⟨some ["test"], none, none⟩ := rfl

/-- The `-c value` step with the topic already parsed: the classification of
the value token and the `verify_int_range` bound checks, exactly as the token
loop performs them. -/
theorem parse_step_count (s : String) :
    parseTokens ["-c", s] ⟨some ["test"], none, none⟩ =
      (if isOptionToken s then .err (.expectedOneArgument "-c")
       else
         match verify_int_range 0 10 s with
         | .error e => .err (.invalidValue "-c" e)
         | .ok n => parseTokens [] ⟨some ["test"], some n, none⟩) := rfl

/-- The `--timeout value` step with the topic already parsed. -/
theorem parse_step_timeout (s : String) :
    parseTokens ["--timeout", s] ⟨some ["test"], none, none⟩ =
      (if isOptionToken s then .err (.expectedOneArgument "--timeout")
       else
         match verify_int_range 0 60 s with
         | .error e => .err (.invalidValue "--timeout" e)
         | .ok n => parseTokens [] ⟨some ["test"], none, some n⟩) := rfl

/-- C4 counterexample: 24 satisfies the claimed bound 2 ≤ n ≤ 24, yet
`-c 24` is rejected, because the enforced strict upper bound is the default
10 of `verify_int_range`, not 25. -/
theorem C4_counterexample_24 :
    ((2 : Int) ≤ 24 ∧ (24 : Int) ≤ 24) ∧
    parse_args ["-t", "test", "-c", "24"] =
      .err (.invalidValue "-c" (.intTooHigh "24" 10)) :=
  ⟨by norm_num, by decide⟩

/-- C4 (amended): an explicitly supplied article count n is accepted exactly
when 1 ≤ n ≤ 9: the validator runs with its default bounds 0 and 10 and both
comparisons are strict. -/
theorem C4_article_count_accepted_iff (s : String) (n : Int)
    (h : pyInt s = some n) :
    (parse_args ["-t", "test", "-c", s] = .ok ⟨["test"], n, 10⟩ ↔
      1 ≤ n ∧ n ≤ 9) := by
  have hargv : parse_args ["-t", "test", "-c", s] =
      parseTokens ["-c", s] ⟨some ["test"], none, none⟩ :=
    parse_step_topic_test ["-c", s]
  rw [hargv, parse_step_count s]
  by_cases hopt : isOptionToken s = true
  · obtain ⟨c, cs, hshape⟩ := isOptionToken_shape s hopt
    have hn : n ≤ 0 := pyInt_nonpos_of_dash_head s c cs hshape n h
    rw [if_pos hopt]
    exact iff_of_false (by simp) (by omega)
  · rw [if_neg hopt, verify_int_range_of_pyInt_some 0 10 s n h]
    by_cases h1 : n ≤ 0
    · rw [if_pos h1]
      exact iff_of_false (by simp) (by omega)
    · by_cases h2 : n ≥ 10
      · rw [if_neg h1, if_pos h2]
        exact iff_of_false (by simp) (by omega)
      · rw [if_neg h1, if_neg h2]
        show parseTokens [] ⟨some ["test"], some n, none⟩ =
            ParseOutcome.ok ⟨["test"], n, 10⟩ ↔ 1 ≤ n ∧ n ≤ 9
        exact iff_of_true rfl (by omega)

/-- Witness for C4 (amended) at the concrete count 5. -/
theorem C4_article_count_accepted_iff_witness :
    parse_args ["-t", "test", "-c", "5"] = .ok ⟨["test"], 5, 10⟩ :=
  (C4_article_count_accepted_iff "5" 5 (by decide)).mpr (by norm_num)

/-- C5: an explicitly supplied timeout t is accepted exactly when
1 ≤ t ≤ 59 (validator bounds 0 and 60, both strict); in particular 61, 1000
and -200 all fail validation. -/
theorem C5_timeout_accepted_iff (s : String) (n : Int)
    (h : pyInt s = some n) :
    (parse_args ["-t", "test", "--timeout", s] = .ok ⟨["test"], 10, n⟩ ↔
      1 ≤ n ∧ n ≤ 59) ∧
    parse_args ["-t", "test", "--timeout", "61"] =
      .err (.invalidValue "--timeout" (.intTooHigh "61" 60)) ∧
    parse_args ["-t", "test", "--timeout", "1000"] =
      .err (.invalidValue "--timeout" (.intTooHigh "1000" 60)) ∧
    parse_args ["-t", "test", "--timeout", "-200"] =
      .err (.invalidValue "--timeout" (.intTooLow "-200" 0)) := by
  refine ⟨?_, by decide, by decide, by decide⟩
  have hargv : parse_args ["-t", "test", "--timeout", s] =
      parseTokens ["--timeout", s] ⟨some ["test"], none, none⟩ :=
    parse_step_topic_test ["--timeout", s]
  rw [hargv, parse_step_timeout s]
  by_cases hopt : isOptionToken s = true
  · obtain ⟨c, cs, hshape⟩ := isOptionToken_shape s hopt
    have hn : n ≤ 0 := pyInt_nonpos_of_dash_head s c cs hshape n h
    rw [if_pos hopt]
    exact iff_of_false (by simp) (by omega)
  · rw [if_neg hopt, verify_int_range_of_pyInt_some 0 60 s n h]
    by_cases h1 : n ≤ 0
    · rw [if_pos h1]
      exact iff_of_false (by simp) (by omega)
    · by_cases h2 : n ≥ 60
      · rw [if_neg h1, if_pos h2]
        exact iff_of_false (by simp) (by omega)
      · rw [if_neg h1, if_neg h2]
        show parseTokens [] ⟨some ["test"], none, some n⟩ =
            ParseOutcome.ok ⟨["test"], 10, n⟩ ↔ 1 ≤ n ∧ n ≤ 59
        exact iff_of_true rfl (by omega)

/-- Witness for C5 at the concrete timeout 20. -/
theorem C5_timeout_accepted_iff_witness :
    parse_args ["-t", "test", "--timeout", "20"] = .ok ⟨["test"], 10, 20⟩ :=
  ((C5_timeout_accepted_iff "20" 20 (by decide)).1).mpr (by norm_num)

/-- C8: `-t test -c 1` parses to article_count 1 with topic ["test"] and the
default timeout 10, and `-t test -c 5` parses to article_count 5. -/
theorem C8_explicit_count_values :
    parse_args ["-t", "test", "-c", "1"] = .ok ⟨["test"], 1, 10⟩ ∧
    parse_args ["-t", "test", "-c", "5"] = .ok ⟨["test"], 5, 10⟩ := by
  decide

/-- C9: omitting --article_count yields the default 10, while the explicit
`-c 10` is rejected (10 is not strictly below the upper bound 10): the
default, stored without passing through the `type` validator, lies outside
the range accepted for explicit values. -/
theorem C9_default_outside_accepted_range :
    parse_args ["-t", "test"] = .ok ⟨["test"], 10, 10⟩ ∧
    parse_args ["-t", "test", "-c", "10"] =
      .err (.invalidValue "-c" (.intTooHigh "10" 10)) := by
  decide

/-! ## Claim theorems about the main routine -/

/-- The continuation after the request contains no further HTTP GET. -/
theorem responseEvents_no_get (resp : HttpResponse) :
    (responseEvents resp).countP Event.isHttpGet = 0 := by
  unfold responseEvents
  split
  · rfl
  · cases resp.jsonPretty <;> rfl

/-- C6 (code evaluation): with NEWS_KEY present, main issues exactly one
HTTP GET, to BASE_URL with the built payload — but the request carries no
timeout at all: the call site passes no `timeout=` argument, so the parsed
`args.timeout` never reaches the request, contrary to the claim. -/
theorem C6_single_get_without_timeout (args : PyNamespace)
    (env : String → Option String) (key : String) (resp : HttpResponse)
    (h : env "NEWS_KEY" = some key) :
    (mainRun args env resp).1.countP Event.isHttpGet = 1 ∧
    Event.httpGet BASE_URL (buildPayload args key) none ∈
      (mainRun args env resp).1 := by
  unfold mainRun
  rw [h]
  constructor
  · rw [List.countP_append, responseEvents_no_get]
    rfl
  · simp

/-- Concrete environment holding the API key, for the witnesses. -/
def envWithKey : String → Option String :=
  fun k => if k = "NEWS_KEY" then some "KEY" else none

/-- Concrete environment without the API key, for the witnesses. -/
def envEmpty : String → Option String := fun _ => none

/-- Witness for C6 at a concrete run. -/
theorem C6_single_get_without_timeout_witness :
    (mainRun ⟨["test"], 10, 10⟩ envWithKey ⟨200, some "r"⟩).1.countP
        Event.isHttpGet = 1 ∧
    Event.httpGet BASE_URL (buildPayload ⟨["test"], 10, 10⟩ "KEY") none ∈
      (mainRun ⟨["test"], 10, 10⟩ envWithKey ⟨200, some "r"⟩).1 :=
  C6_single_get_without_timeout ⟨["test"], 10, 10⟩ envWithKey "KEY"
    ⟨200, some "r"⟩ (by decide)

/-- C7: when NEWS_KEY is absent, main prints the args line to stdout and the
fixed instructional message to stderr, exits with code 22, and issues no
HTTP request. -/
theorem C7_missing_key_exits_22 (args : PyNamespace)
    (env : String → Option String) (resp : HttpResponse)
    (h : env "NEWS_KEY" = none) :
    mainRun args env resp =
      ([.stdout ("args are " ++ namespaceRepr args), .stderrOut NO_KEY_MSG],
        .exited 22) ∧
    (mainRun args env resp).1.countP Event.isHttpGet = 0 := by
  unfold mainRun
  rw [h]
  exact ⟨rfl, rfl⟩

/-- Witness for C7 at a concrete run. -/
theorem C7_missing_key_exits_22_witness :
    mainRun ⟨["test"], 10, 10⟩ envEmpty ⟨200, some "r"⟩ =
      ([.stdout ("args are " ++ namespaceRepr ⟨["test"], 10, 10⟩),
        .stderrOut NO_KEY_MSG], .exited 22) ∧
    (mainRun ⟨["test"], 10, 10⟩ envEmpty ⟨200, some "r"⟩).1.countP
        Event.isHttpGet = 0 :=
  C7_missing_key_exits_22 ⟨["test"], 10, 10⟩ envEmpty ⟨200, some "r"⟩ rfl

/-- C10: on every run that reaches main with parsed args, the first
observable event is the debug line "args are ..." on stdout — before the
API-key check and before any network activity, whatever the environment or
response hold. -/
theorem C10_args_line_printed_first (args : PyNamespace)
    (env : String → Option String) (resp : HttpResponse) :
    ∃ rest, (mainRun args env resp).1 =
      Event.stdout ("args are " ++ namespaceRepr args) :: rest := by
  unfold mainRun
  cases env "NEWS_KEY" with
  | none => exact ⟨_, rfl⟩
  | some key => exact ⟨_, rfl⟩

end NewsCli
